import Mathlib

/-!
# Adaptive quiz engine: `Game.js`

A shallow embedding of the two handlers of
`src/frontend/src/components/Game.js`:

* `loadNextQuestion` (lines 26-70), the question draw with tier escalation;
* `handleAnswer` (lines 86-151), the streak bookkeeping and difficulty
  transition.

The React component keeps its data in `useState` cells.  A handler reads the
values captured when it was created and queues updates; here a handler is a
function from the state it starts from to the state left once every queued
update has been applied, in order.  Values captured by a `useCallback`
dependency list are explicit parameters.  `Math.floor(Math.random() * n)` is
an arbitrary index below `n`: the random source is a stream `rnd : Nat → Nat`
of raw draws, reduced modulo `n`.
-/

namespace Game

/-- The `useState` cells of the component (lines 11-24). -/
structure GameState (Q : Type) where
  currentQuestion : Option Q
  gameMode : Option String
  score : Nat
  playerData : List (Option Q × Bool)
  actualStreak : Nat
  innerStreak : Nat
  consecutiveWrongAnswers : Nat
  difficulty : String
  loading : Bool
  error : Option String
  previousQuestions : List Q
  isInitialLoad : Bool
  askedQuestions : List Q
  showModal : Bool

/-- The initial values passed to `useState` (lines 11-24). -/
def initialState (Q : Type) : GameState Q :=
  { currentQuestion := none
    gameMode := none
    score := 0
    playerData := []
    actualStreak := 0
    innerStreak := 0
    consecutiveWrongAnswers := 0
    difficulty := "easy"
    loading := true
    error := none
    previousQuestions := []
    isInitialLoad := true
    askedQuestions := []
    showModal := false }

/-- The object `questions`: a mode maps to an object, a tier maps to an array.
A missing key (`undefined`) is `none`. -/
abbrev QuestionPool (Q : Type) := String → Option (String → Option (List Q))

/-- The array literal `modes` of line 28. -/
def modes : List String := ["multipleChoice", "fillInTheBlank"]

/-- Line 29: `modes[Math.floor(Math.random() * modes.length)]` for the raw
draw `r`. -/
def drawMode (r : Nat) : String := modes.getD (r % modes.length) ""

/-- The test of line 32 and the read of line 39: `questions[mode][difficulty]`,
`none` when `questions[mode]` or `questions[mode][difficulty]` is missing. -/
def lookup {Q : Type} (questions : QuestionPool Q) (mode difficulty : String) :
    Option (List Q) :=
  match questions mode with
  | none => none
  | some byDifficulty => byDifficulty difficulty

/-- Lines 45-55: the tier tried after `difficulty` has run dry, `none` in the
final `else` (no higher tier). -/
def escalate (difficulty : String) : Option String :=
  if difficulty = "easy" then some "normal"
  else if difficulty = "normal" then some "hard"
  else none

/-- Number of escalations still possible from a tier; the recursion of
`loadNextQuestion` decreases it. -/
def tierBudget (difficulty : String) : Nat :=
  if difficulty = "easy" then 2 else if difficulty = "normal" then 1 else 0

/-- The branch in which a call of `loadNextQuestion` returned (it returns
`undefined`; the branch is recorded so that properties can name it):
a question was set (lines 62-69), the game-over modal was raised
(lines 51-54), or the error of lines 33-36 was set.  `mode` and `tier` are
the mode drawn and the tier tried in the call that returned. -/
inductive Outcome (Q : Type) where
  | selected (mode tier : String) (question : Q)
  | exhausted (mode tier : String)
  | configError (mode tier : String)
  deriving DecidableEq, Repr

/-- What a call of `loadNextQuestion` leaves: the state, the returning branch,
and the tiers tried, outermost call first. -/
structure LoadResult (Q : Type) where
  state : GameState Q
  outcome : Outcome Q
  attempts : List String

/-- Lines 26-70.  `questions` and `askedQuestions` are the values captured by
the callback (its dependency list, line 70); `st` is the state the queued
updates apply to.  The recursive call of line 58 runs the same callback, so it
filters with the same `askedQuestions`. -/
def loadNextQuestion {Q : Type} [DecidableEq Q] (questions : QuestionPool Q)
    (askedQuestions : List Q) (difficulty : String) (rnd : Nat → Nat)
    (st : GameState Q) : LoadResult Q :=
  let selectedMode := drawMode (rnd 0)
  match lookup questions selectedMode difficulty with
  | none =>
    { state :=
        { st with
          error := some ("Questions not found for mode: " ++ selectedMode ++
            " and difficulty: " ++ difficulty)
          loading := false }
      outcome := Outcome.configError selectedMode difficulty
      attempts := [difficulty] }
  | some questionsByDifficulty =>
    let availableQuestions :=
      questionsByDifficulty.filter (fun q => !askedQuestions.contains q)
    if h : availableQuestions.length = 0 then
      match hn : escalate difficulty with
      | none =>
        { state := { st with showModal := true, loading := false }
          outcome := Outcome.exhausted selectedMode difficulty
          attempts := [difficulty] }
      | some nextDifficulty =>
        let r := loadNextQuestion questions askedQuestions nextDifficulty
          (fun i => rnd (i + 1))
          { st with difficulty := nextDifficulty, previousQuestions := [] }
        { r with attempts := difficulty :: r.attempts }
    else
      let randomIndex := rnd 1 % availableQuestions.length
      let newQuestion := availableQuestions.get
        ⟨randomIndex, Nat.mod_lt _ (Nat.pos_of_ne_zero h)⟩
      { state :=
          { st with
            askedQuestions := st.askedQuestions ++ [newQuestion]
            previousQuestions := st.previousQuestions ++ [newQuestion]
            gameMode := some selectedMode
            currentQuestion := some newQuestion
            loading := false }
        outcome := Outcome.selected selectedMode difficulty newQuestion
        attempts := [difficulty] }
termination_by tierBudget difficulty
decreasing_by
  unfold escalate at hn
  split at hn
  · next he =>
    cases hn
    subst he
    decide
  · split at hn
    · next he =>
      cases hn
      subst he
      decide
    · cases hn

/-- The object `playerStats` of lines 110-113, the predictor's argument. -/
structure PlayerStats where
  streak : Nat
  current_difficulty : String
  deriving DecidableEq, Repr

/-- Lines 118-137: the value of `nextDifficulty` when the `try` block reaches
line 139 (`none` when `predictDifficulty` threw or its promise was rejected),
together with the locals `newInnerStreak` and `newConsecutiveWrongAnswers` as
the branches leave them. -/
structure Transition where
  nextDifficulty : Option String
  newInnerStreak : Nat
  newConsecutiveWrongAnswers : Nat
  deriving DecidableEq, Repr

/-- Lines 118-137.  `predictDifficulty` is the imported predictor, `none`
standing for a throw; it is called in the last branch only. -/
def transition (predictDifficulty : PlayerStats → Option String)
    (difficulty : String) (isCorrect : Bool)
    (newInnerStreak newConsecutiveWrongAnswers : Nat) : Transition :=
  if newInnerStreak ≥ 3 then
    { nextDifficulty :=
        some (if difficulty = "easy" then "normal"
          else if difficulty = "normal" then "hard"
          else difficulty)
      newInnerStreak := 0
      newConsecutiveWrongAnswers := newConsecutiveWrongAnswers }
  else if difficulty = "hard" ∧ isCorrect = false then
    { nextDifficulty := some "normal"
      newInnerStreak := 0
      newConsecutiveWrongAnswers := newConsecutiveWrongAnswers }
  else if difficulty = "normal" ∧ newConsecutiveWrongAnswers ≥ 2 then
    { nextDifficulty := some "easy"
      newInnerStreak := 0
      newConsecutiveWrongAnswers := 0 }
  else
    { nextDifficulty :=
        predictDifficulty
          { streak := newInnerStreak, current_difficulty := difficulty }
      newInnerStreak := newInnerStreak
      newConsecutiveWrongAnswers := newConsecutiveWrongAnswers }

/-- Lines 87-108: the state after the setters of lines 98 and 105-108, which
run before the `try` block. -/
def recordAnswer {Q : Type} (isCorrect : Bool) (s : GameState Q) : GameState Q :=
  let newActualStreak := if isCorrect then s.actualStreak + 1 else 0
  let newInnerStreak := if isCorrect then s.innerStreak + 1 else 0
  let newConsecutiveWrongAnswers :=
    if isCorrect then 0 else s.consecutiveWrongAnswers + 1
  { s with
    score := if isCorrect then s.score + (1 + newActualStreak / 3) else s.score
    actualStreak := newActualStreak
    innerStreak := newInnerStreak
    consecutiveWrongAnswers := newConsecutiveWrongAnswers
    playerData := s.playerData ++ [(s.currentQuestion, isCorrect)] }

/-- What a call of `handleAnswer` leaves: the state, the locals at the end of
lines 118-137, and what the call of `loadNextQuestion` at line 146 left
(`none` when the `catch` block ran instead and no question was drawn). -/
structure AnswerResult (Q : Type) where
  state : GameState Q
  locals : Transition
  load : Option (LoadResult Q)

/-- Lines 86-151.  `s` is the state of the render the handler belongs to; the
`loadNextQuestion` it calls is the callback of that render, which captured
`s.askedQuestions`. -/
def handleAnswer {Q : Type} [DecidableEq Q] (questions : QuestionPool Q)
    (predictDifficulty : PlayerStats → Option String) (rnd : Nat → Nat)
    (isCorrect : Bool) (s : GameState Q) : AnswerResult Q :=
  let s1 := recordAnswer isCorrect s
  let t := transition predictDifficulty s.difficulty isCorrect
    s1.innerStreak s1.consecutiveWrongAnswers
  match t.nextDifficulty with
  | none =>
    { state := { s1 with error := some "Error predicting difficulty" }
      locals := t
      load := none }
  | some nextDifficulty =>
    let s2 :=
      if nextDifficulty ≠ s.difficulty then
        { s1 with difficulty := nextDifficulty, previousQuestions := [] }
      else s1
    let r := loadNextQuestion questions s.askedQuestions nextDifficulty rnd
      { s2 with loading := true }
    { state := r.state, locals := t, load := some r }

/-- The inputs of one answered round: the correctness reported by the question
component, the behaviour of the predictor during that call, and the random
draws of the selection that follows. -/
structure Round where
  isCorrect : Bool
  predictDifficulty : PlayerStats → Option String
  rnd : Nat → Nat

/-- A session: `handleAnswer` run once per round, each call on the state left
by the previous one. -/
def play {Q : Type} [DecidableEq Q] (questions : QuestionPool Q) :
    List Round → GameState Q → GameState Q
  | [], s => s
  | r :: rest, s =>
    play questions rest
      (handleAnswer questions r.predictDifficulty r.rnd r.isCorrect s).state

/-- The transition rules in the words of the specification (section 4.2,
step 2), on the counters after the update of step 1; `p` is the tier returned
by the predictor. -/
def specNextDifficulty (current : String) (isCorrect : Bool)
    (innerStreak consecutiveWrong : Nat) (p : String) : String :=
  if innerStreak ≥ 3 then
    (if current = "easy" then "normal"
      else if current = "normal" then "hard"
      else "hard")
  else if current = "hard" ∧ isCorrect = false then "normal"
  else if current = "normal" ∧ consecutiveWrong ≥ 2 then "easy"
  else p


/-! ## Concrete pools and rounds used to evaluate the handlers -/

/-- A pool with three questions for each mode and tier. -/
def samplePool : QuestionPool Nat := fun mode =>
  if mode = "multipleChoice" then
    some (fun tier =>
      if tier = "easy" then some [1, 2, 3]
      else if tier = "normal" then some [4, 5, 6]
      else if tier = "hard" then some [7, 8, 9]
      else none)
  else if mode = "fillInTheBlank" then
    some (fun tier =>
      if tier = "easy" then some [11, 12, 13]
      else if tier = "normal" then some [14, 15, 16]
      else if tier = "hard" then some [17, 18, 19]
      else none)
  else none

/-- A pool whose two modes each hold one question at tier `hard`, question 1
for `multipleChoice` and question 2 for `fillInTheBlank`, and nothing at the
lower tiers. -/
def hardPool : QuestionPool Nat := fun mode =>
  if mode = "multipleChoice" then
    some (fun tier =>
      if tier = "easy" then some []
      else if tier = "normal" then some []
      else if tier = "hard" then some [1]
      else none)
  else if mode = "fillInTheBlank" then
    some (fun tier =>
      if tier = "easy" then some []
      else if tier = "normal" then some []
      else if tier = "hard" then some [2]
      else none)
  else none

/-- A pool with one `easy` question per mode and no entry for the tiers
`normal` and `hard`. -/
def gapPool : QuestionPool Nat := fun mode =>
  if mode = "multipleChoice" then
    some (fun tier => if tier = "easy" then some [1] else none)
  else if mode = "fillInTheBlank" then
    some (fun tier => if tier = "easy" then some [2] else none)
  else none

/-- A round in which the predictor answers with the current difficulty and
every random draw is 0 (first mode, first available question). -/
def steadyRound (isCorrect : Bool) : Round :=
  { isCorrect := isCorrect
    predictDifficulty := fun stats => some stats.current_difficulty
    rnd := fun _ => 0 }

/-- A round in which the predictor throws. -/
def failingRound (isCorrect : Bool) : Round :=
  { isCorrect := isCorrect
    predictDifficulty := fun _ => none
    rnd := fun _ => 0 }

/-- A state in mid-game at tier `easy`: question 1 was asked and is shown. -/
def easyState : GameState Nat :=
  { initialState Nat with
    currentQuestion := some 1
    gameMode := some "multipleChoice"
    loading := false
    isInitialLoad := false
    previousQuestions := [1]
    askedQuestions := [1] }

/-! ## One step of `loadNextQuestion` -/

section Load

variable {Q : Type} [DecidableEq Q]

theorem escalate_budget {difficulty nextDifficulty : String}
    (h : escalate difficulty = some nextDifficulty) :
    tierBudget nextDifficulty < tierBudget difficulty := by
  unfold escalate at h
  split at h
  · next he =>
    cases h
    subst he
    decide
  · split at h
    · next hn =>
      cases h
      subst hn
      decide
    · cases h

theorem escalate_cases {difficulty nextDifficulty : String}
    (h : escalate difficulty = some nextDifficulty) :
    (difficulty = "easy" ∧ nextDifficulty = "normal") ∨
      (difficulty = "normal" ∧ nextDifficulty = "hard") := by
  unfold escalate at h
  split at h
  · next he => cases h; exact Or.inl ⟨he, rfl⟩
  · split at h
    · next hn => cases h; exact Or.inr ⟨hn, rfl⟩
    · cases h

theorem drawMode_cases (r : Nat) :
    drawMode r = "multipleChoice" ∨ drawMode r = "fillInTheBlank" := by
  unfold drawMode modes
  have h : r % 2 < 2 := Nat.mod_lt _ (by decide)
  show [_, _].getD (r % 2) "" = _ ∨ [_, _].getD (r % 2) "" = _
  interval_cases (r % 2) <;> simp

theorem load_configError_eq (questions : QuestionPool Q) (askedQuestions : List Q)
    (difficulty : String) (rnd : Nat → Nat) (st : GameState Q)
    (hl : lookup questions (drawMode (rnd 0)) difficulty = none) :
    loadNextQuestion questions askedQuestions difficulty rnd st =
      { state :=
          { st with
            error := some ("Questions not found for mode: " ++ drawMode (rnd 0) ++
              " and difficulty: " ++ difficulty)
            loading := false }
        outcome := Outcome.configError (drawMode (rnd 0)) difficulty
        attempts := [difficulty] } := by
  rw [loadNextQuestion]
  simp only [hl]

theorem load_exhausted_eq (questions : QuestionPool Q) (askedQuestions : List Q)
    (difficulty : String) (rnd : Nat → Nat) (st : GameState Q) (l : List Q)
    (hl : lookup questions (drawMode (rnd 0)) difficulty = some l)
    (hav : l.filter (fun q => !askedQuestions.contains q) = [])
    (hesc : escalate difficulty = none) :
    loadNextQuestion questions askedQuestions difficulty rnd st =
      { state := { st with showModal := true, loading := false }
        outcome := Outcome.exhausted (drawMode (rnd 0)) difficulty
        attempts := [difficulty] } := by
  rw [loadNextQuestion]
  simp only [hl, hav, List.length_nil, dite_true]
  split
  · rfl
  · next n hn => rw [hesc] at hn; cases hn

theorem load_escalate_eq (questions : QuestionPool Q) (askedQuestions : List Q)
    (difficulty : String) (rnd : Nat → Nat) (st : GameState Q) (l : List Q)
    (nextDifficulty : String)
    (hl : lookup questions (drawMode (rnd 0)) difficulty = some l)
    (hav : l.filter (fun q => !askedQuestions.contains q) = [])
    (hesc : escalate difficulty = some nextDifficulty) :
    loadNextQuestion questions askedQuestions difficulty rnd st =
      { loadNextQuestion questions askedQuestions nextDifficulty (fun i => rnd (i + 1))
          { st with difficulty := nextDifficulty, previousQuestions := [] } with
        attempts := difficulty ::
          (loadNextQuestion questions askedQuestions nextDifficulty (fun i => rnd (i + 1))
            { st with difficulty := nextDifficulty, previousQuestions := [] }).attempts } := by
  rw [loadNextQuestion]
  simp only [hl, hav, List.length_nil, dite_true]
  split
  · next hn => rw [hesc] at hn; cases hn
  · next n hn => rw [hesc] at hn; cases hn; rfl

theorem load_selected_eq (questions : QuestionPool Q) (askedQuestions : List Q)
    (difficulty : String) (rnd : Nat → Nat) (st : GameState Q) (l : List Q)
    (hl : lookup questions (drawMode (rnd 0)) difficulty = some l)
    (hav : l.filter (fun q => !askedQuestions.contains q) ≠ []) :
    ∃ newQuestion,
      newQuestion ∈ l.filter (fun q => !askedQuestions.contains q) ∧
      loadNextQuestion questions askedQuestions difficulty rnd st =
      { state :=
          { st with
            askedQuestions := st.askedQuestions ++ [newQuestion]
            previousQuestions := st.previousQuestions ++ [newQuestion]
            gameMode := some (drawMode (rnd 0))
            currentQuestion := some newQuestion
            loading := false }
        outcome := Outcome.selected (drawMode (rnd 0)) difficulty newQuestion
        attempts := [difficulty] } := by
  have hlen : ¬ (l.filter (fun q => !askedQuestions.contains q)).length = 0 := by
    simpa [List.length_eq_zero] using hav
  refine ⟨(l.filter (fun q => !askedQuestions.contains q)).get
    ⟨rnd 1 % (l.filter (fun q => !askedQuestions.contains q)).length,
      Nat.mod_lt _ (Nat.pos_of_ne_zero hlen)⟩, List.get_mem _ _ _, ?_⟩
  rw [loadNextQuestion]
  simp only [hl, hlen, dite_false]

/-- Case analysis on how a call of `loadNextQuestion` returns: a property of
the call follows from the three returning branches and from the escalating
branch, where it may be assumed for the inner call. -/
theorem load_cases (questions : QuestionPool Q) (askedQuestions : List Q)
    (P : String → (Nat → Nat) → GameState Q → LoadResult Q → Prop)
    (hconfig : ∀ difficulty rnd st,
      lookup questions (drawMode (rnd 0)) difficulty = none →
      P difficulty rnd st
        { state :=
            { st with
              error := some ("Questions not found for mode: " ++ drawMode (rnd 0) ++
                " and difficulty: " ++ difficulty)
              loading := false }
          outcome := Outcome.configError (drawMode (rnd 0)) difficulty
          attempts := [difficulty] })
    (hexhausted : ∀ difficulty rnd st l,
      lookup questions (drawMode (rnd 0)) difficulty = some l →
      l.filter (fun q => !askedQuestions.contains q) = [] →
      escalate difficulty = none →
      P difficulty rnd st
        { state := { st with showModal := true, loading := false }
          outcome := Outcome.exhausted (drawMode (rnd 0)) difficulty
          attempts := [difficulty] })
    (hescalate : ∀ difficulty rnd st l nextDifficulty r,
      lookup questions (drawMode (rnd 0)) difficulty = some l →
      l.filter (fun q => !askedQuestions.contains q) = [] →
      escalate difficulty = some nextDifficulty →
      P nextDifficulty (fun i => rnd (i + 1))
        { st with difficulty := nextDifficulty, previousQuestions := [] } r →
      P difficulty rnd st { r with attempts := difficulty :: r.attempts })
    (hselected : ∀ difficulty rnd st l newQuestion,
      lookup questions (drawMode (rnd 0)) difficulty = some l →
      newQuestion ∈ l.filter (fun q => !askedQuestions.contains q) →
      P difficulty rnd st
        { state :=
            { st with
              askedQuestions := st.askedQuestions ++ [newQuestion]
              previousQuestions := st.previousQuestions ++ [newQuestion]
              gameMode := some (drawMode (rnd 0))
              currentQuestion := some newQuestion
              loading := false }
          outcome := Outcome.selected (drawMode (rnd 0)) difficulty newQuestion
          attempts := [difficulty] })
    (difficulty : String) (rnd : Nat → Nat) (st : GameState Q) :
    P difficulty rnd st (loadNextQuestion questions askedQuestions difficulty rnd st) := by
  generalize hn : tierBudget difficulty = n
  induction n using Nat.strong_induction_on generalizing difficulty rnd st with
  | _ n ih =>
    cases hl : lookup questions (drawMode (rnd 0)) difficulty with
    | none =>
      rw [load_configError_eq questions askedQuestions difficulty rnd st hl]
      exact hconfig difficulty rnd st hl
    | some l =>
      by_cases hav : l.filter (fun q => !askedQuestions.contains q) = []
      · cases hesc : escalate difficulty with
        | none =>
          rw [load_exhausted_eq questions askedQuestions difficulty rnd st l hl hav hesc]
          exact hexhausted difficulty rnd st l hl hav hesc
        | some nextDifficulty =>
          rw [load_escalate_eq questions askedQuestions difficulty rnd st l
            nextDifficulty hl hav hesc]
          have hlt : tierBudget nextDifficulty < n := hn ▸ escalate_budget hesc
          exact hescalate difficulty rnd st l nextDifficulty _ hl hav hesc
            (ih _ hlt nextDifficulty _ _ rfl)
      · obtain ⟨newQuestion, hmem, heq⟩ :=
          load_selected_eq questions askedQuestions difficulty rnd st l hl hav
        rw [heq]
        exact hselected difficulty rnd st l newQuestion hl hmem

end Load

/-! ## Properties of a call of `loadNextQuestion` -/

section LoadProps

variable {Q : Type} [DecidableEq Q]

/-- A call never touches the score, the streak counters or the answer log, and
always clears `loading`. -/
theorem load_frame (questions : QuestionPool Q) (askedQuestions : List Q)
    (difficulty : String) (rnd : Nat → Nat) (st : GameState Q) :
    (loadNextQuestion questions askedQuestions difficulty rnd st).state.score = st.score ∧
    (loadNextQuestion questions askedQuestions difficulty rnd st).state.actualStreak =
      st.actualStreak ∧
    (loadNextQuestion questions askedQuestions difficulty rnd st).state.innerStreak =
      st.innerStreak ∧
    (loadNextQuestion questions askedQuestions difficulty rnd st).state.consecutiveWrongAnswers =
      st.consecutiveWrongAnswers ∧
    (loadNextQuestion questions askedQuestions difficulty rnd st).state.playerData =
      st.playerData ∧
    (loadNextQuestion questions askedQuestions difficulty rnd st).state.loading = false := by
  refine load_cases questions askedQuestions
    (fun _ _ st r => r.state.score = st.score ∧ r.state.actualStreak = st.actualStreak ∧
      r.state.innerStreak = st.innerStreak ∧
      r.state.consecutiveWrongAnswers = st.consecutiveWrongAnswers ∧
      r.state.playerData = st.playerData ∧ r.state.loading = false)
    ?_ ?_ ?_ ?_ difficulty rnd st
  · intros; simp
  · intros; simp
  · intro d rnd st l n r _ _ _ ih
    simpa using ih
  · intros; simp

/-- The tiers tried by a call: the starting tier alone, or a run of
escalations from it. -/
theorem load_attempts (questions : QuestionPool Q) (askedQuestions : List Q)
    (difficulty : String) (rnd : Nat → Nat) (st : GameState Q) :
    (loadNextQuestion questions askedQuestions difficulty rnd st).attempts = [difficulty] ∨
    (difficulty = "easy" ∧
      (loadNextQuestion questions askedQuestions difficulty rnd st).attempts =
        ["easy", "normal"]) ∨
    (difficulty = "easy" ∧
      (loadNextQuestion questions askedQuestions difficulty rnd st).attempts =
        ["easy", "normal", "hard"]) ∨
    (difficulty = "normal" ∧
      (loadNextQuestion questions askedQuestions difficulty rnd st).attempts =
        ["normal", "hard"]) := by
  refine load_cases questions askedQuestions
    (fun d _ _ r => r.attempts = [d] ∨ (d = "easy" ∧ r.attempts = ["easy", "normal"]) ∨
      (d = "easy" ∧ r.attempts = ["easy", "normal", "hard"]) ∨
      (d = "normal" ∧ r.attempts = ["normal", "hard"]))
    ?_ ?_ ?_ ?_ difficulty rnd st
  · intros; simp
  · intros; simp
  · intro d rnd st l n r _ _ hesc ih
    rcases escalate_cases hesc with ⟨hd, hn⟩ | ⟨hd, hn⟩
    · subst hd hn
      rcases ih with h | ⟨h, _⟩ | ⟨h, _⟩ | ⟨_, h⟩
      · simp [h]
      · exact absurd h (by decide)
      · exact absurd h (by decide)
      · simp [h]
    · subst hd hn
      rcases ih with h | ⟨h, _⟩ | ⟨h, _⟩ | ⟨h, _⟩
      · simp [h]
      · exact absurd h (by decide)
      · exact absurd h (by decide)
      · exact absurd h (by decide)
  · intros; simp

/-- The stored difficulty after a call: untouched without escalation, the last
tier tried after one. -/
theorem load_difficulty (questions : QuestionPool Q) (askedQuestions : List Q)
    (difficulty : String) (rnd : Nat → Nat) (st : GameState Q) :
    ((loadNextQuestion questions askedQuestions difficulty rnd st).attempts = [difficulty] →
      (loadNextQuestion questions askedQuestions difficulty rnd st).state.difficulty =
        st.difficulty) ∧
    ((loadNextQuestion questions askedQuestions difficulty rnd st).attempts ≠ [difficulty] →
      (loadNextQuestion questions askedQuestions difficulty rnd st).attempts.getLast? =
        some (loadNextQuestion questions askedQuestions difficulty rnd st).state.difficulty) ∧
    (loadNextQuestion questions askedQuestions difficulty rnd st).attempts.head? =
      some difficulty := by
  refine load_cases questions askedQuestions
    (fun d _ st r => (r.attempts = [d] → r.state.difficulty = st.difficulty) ∧
      (r.attempts ≠ [d] → r.attempts.getLast? = some r.state.difficulty) ∧
      r.attempts.head? = some d)
    ?_ ?_ ?_ ?_ difficulty rnd st
  · intros; simp
  · intros; simp
  · intro d rnd st l n r _ _ _ ih
    obtain ⟨ih1, ih2, ih3⟩ := ih
    refine ⟨?_, ?_, by simp⟩
    · intro h
      cases hr : r.attempts with
      | nil => rw [hr] at ih3; simp at ih3
      | cons a as => rw [hr] at h; simp at h
    · intro _
      cases hr : r.attempts with
      | nil => rw [hr] at ih3; simp at ih3
      | cons a as =>
        rw [hr] at ih3
        simp only [List.head?_cons, Option.some.injEq] at ih3
        subst ih3
        by_cases hs : r.attempts = [a]
        · have := ih1 hs
          rw [hr] at hs
          simp only [List.cons.injEq, true_and] at hs
          subst hs
          simpa using this.symm
        · have := ih2 hs
          rw [hr] at this
          simpa [List.getLast?_cons_cons] using this
  · intros; simp

/-- The selecting branch: the question comes from the list of the drawn mode at
the last tier tried, is absent from the captured asked list, and is appended
once to the stored one; modal and error are left alone. -/
theorem load_selected (questions : QuestionPool Q) (askedQuestions : List Q)
    (difficulty : String) (rnd : Nat → Nat) (st : GameState Q)
    (mode tier : String) (q : Q)
    (h : (loadNextQuestion questions askedQuestions difficulty rnd st).outcome =
      Outcome.selected mode tier q) :
    mode ∈ modes ∧
    (∃ l, lookup questions mode tier = some l ∧ q ∈ l) ∧
    q ∉ askedQuestions ∧
    (loadNextQuestion questions askedQuestions difficulty rnd st).state.askedQuestions =
      st.askedQuestions ++ [q] ∧
    (loadNextQuestion questions askedQuestions difficulty rnd st).state.currentQuestion =
      some q ∧
    (loadNextQuestion questions askedQuestions difficulty rnd st).state.gameMode =
      some mode ∧
    (loadNextQuestion questions askedQuestions difficulty rnd st).state.showModal =
      st.showModal ∧
    (loadNextQuestion questions askedQuestions difficulty rnd st).state.error = st.error ∧
    (loadNextQuestion questions askedQuestions difficulty rnd st).attempts.getLast? =
      some tier := by
  revert h
  refine load_cases questions askedQuestions
    (fun _ _ st r => r.outcome = Outcome.selected mode tier q →
      mode ∈ modes ∧ (∃ l, lookup questions mode tier = some l ∧ q ∈ l) ∧
      q ∉ askedQuestions ∧ r.state.askedQuestions = st.askedQuestions ++ [q] ∧
      r.state.currentQuestion = some q ∧ r.state.gameMode = some mode ∧
      r.state.showModal = st.showModal ∧ r.state.error = st.error ∧
      r.attempts.getLast? = some tier)
    ?_ ?_ ?_ ?_ difficulty rnd st
  · intro d rnd st _ h
    simp at h
  · intro d rnd st l _ _ _ h
    simp at h
  · intro d rnd st l n r _ _ _ ih h
    obtain ⟨h1, h2, h3, h4, h5, h6, h7, h8, h9⟩ := ih h
    refine ⟨h1, h2, h3, h4, h5, h6, h7, h8, ?_⟩
    cases hr : r.attempts with
    | nil => rw [hr] at h9; simp at h9
    | cons a as => rw [hr] at h9; simpa [List.getLast?_cons_cons] using h9
  · intro d rnd st l newQuestion hl hmem h
    simp only [Outcome.selected.injEq] at h
    obtain ⟨hm, ht, hq⟩ := h
    subst hm ht hq
    rw [List.mem_filter] at hmem
    refine ⟨?_, ⟨l, hl, hmem.1⟩, ?_, rfl, rfl, rfl, rfl, rfl, by simp⟩
    · rcases drawMode_cases (rnd 0) with h | h <;> simp [h, modes]
    · simpa using hmem.2

/-- The game-over branch: the list of the drawn mode at the last tier tried
holds asked questions only and that tier has no successor; the asked list, the
question shown and the error are left alone. -/
theorem load_exhausted (questions : QuestionPool Q) (askedQuestions : List Q)
    (difficulty : String) (rnd : Nat → Nat) (st : GameState Q)
    (mode tier : String)
    (h : (loadNextQuestion questions askedQuestions difficulty rnd st).outcome =
      Outcome.exhausted mode tier) :
    mode ∈ modes ∧
    (∃ l, lookup questions mode tier = some l ∧ ∀ x ∈ l, x ∈ askedQuestions) ∧
    escalate tier = none ∧
    (loadNextQuestion questions askedQuestions difficulty rnd st).state.askedQuestions =
      st.askedQuestions ∧
    (loadNextQuestion questions askedQuestions difficulty rnd st).state.currentQuestion =
      st.currentQuestion ∧
    (loadNextQuestion questions askedQuestions difficulty rnd st).state.showModal = true ∧
    (loadNextQuestion questions askedQuestions difficulty rnd st).state.error = st.error ∧
    (loadNextQuestion questions askedQuestions difficulty rnd st).attempts.getLast? =
      some tier := by
  revert h
  refine load_cases questions askedQuestions
    (fun _ _ st r => r.outcome = Outcome.exhausted mode tier →
      mode ∈ modes ∧ (∃ l, lookup questions mode tier = some l ∧ ∀ x ∈ l, x ∈ askedQuestions) ∧
      escalate tier = none ∧ r.state.askedQuestions = st.askedQuestions ∧
      r.state.currentQuestion = st.currentQuestion ∧ r.state.showModal = true ∧
      r.state.error = st.error ∧ r.attempts.getLast? = some tier)
    ?_ ?_ ?_ ?_ difficulty rnd st
  · intro d rnd st _ h
    simp at h
  · intro d rnd st l hl hav hesc h
    simp only [Outcome.exhausted.injEq] at h
    obtain ⟨hm, ht⟩ := h
    subst hm ht
    refine ⟨?_, ⟨l, hl, ?_⟩, hesc, rfl, rfl, rfl, rfl, by simp⟩
    · rcases drawMode_cases (rnd 0) with h | h <;> simp [h, modes]
    · intro x hx
      by_contra hnot
      have : x ∈ l.filter (fun q => !askedQuestions.contains q) := by
        rw [List.mem_filter]
        exact ⟨hx, by simpa using hnot⟩
      rw [hav] at this
      simp at this
  · intro d rnd st l n r _ _ _ ih h
    obtain ⟨h1, h2, h3, h4, h5, h6, h7, h8⟩ := ih h
    refine ⟨h1, h2, h3, h4, h5, h6, h7, ?_⟩
    cases hr : r.attempts with
    | nil => rw [hr] at h8; simp at h8
    | cons a as => rw [hr] at h8; simpa [List.getLast?_cons_cons] using h8
  · intro d rnd st l newQuestion _ _ h
    simp at h

/-- The error branch: the drawn mode has no list at the last tier tried; the
asked list, the question shown and the modal are left alone; the previous
questions are kept without escalation and cleared after one. -/
theorem load_configError (questions : QuestionPool Q) (askedQuestions : List Q)
    (difficulty : String) (rnd : Nat → Nat) (st : GameState Q)
    (mode tier : String)
    (h : (loadNextQuestion questions askedQuestions difficulty rnd st).outcome =
      Outcome.configError mode tier) :
    mode ∈ modes ∧
    lookup questions mode tier = none ∧
    (loadNextQuestion questions askedQuestions difficulty rnd st).state.askedQuestions =
      st.askedQuestions ∧
    (loadNextQuestion questions askedQuestions difficulty rnd st).state.currentQuestion =
      st.currentQuestion ∧
    (loadNextQuestion questions askedQuestions difficulty rnd st).state.showModal =
      st.showModal ∧
    (loadNextQuestion questions askedQuestions difficulty rnd st).state.error =
      some ("Questions not found for mode: " ++ mode ++ " and difficulty: " ++ tier) ∧
    (loadNextQuestion questions askedQuestions difficulty rnd st).attempts.getLast? =
      some tier ∧
    ((loadNextQuestion questions askedQuestions difficulty rnd st).attempts = [difficulty] →
      (loadNextQuestion questions askedQuestions difficulty rnd st).state.previousQuestions =
        st.previousQuestions) ∧
    ((loadNextQuestion questions askedQuestions difficulty rnd st).attempts ≠ [difficulty] →
      (loadNextQuestion questions askedQuestions difficulty rnd st).state.previousQuestions =
        []) := by
  revert h
  refine load_cases questions askedQuestions
    (fun d _ st r => r.outcome = Outcome.configError mode tier →
      mode ∈ modes ∧ lookup questions mode tier = none ∧
      r.state.askedQuestions = st.askedQuestions ∧
      r.state.currentQuestion = st.currentQuestion ∧ r.state.showModal = st.showModal ∧
      r.state.error =
        some ("Questions not found for mode: " ++ mode ++ " and difficulty: " ++ tier) ∧
      r.attempts.getLast? = some tier ∧
      (r.attempts = [d] → r.state.previousQuestions = st.previousQuestions) ∧
      (r.attempts ≠ [d] → r.state.previousQuestions = []))
    ?_ ?_ ?_ ?_ difficulty rnd st
  · intro d rnd st hl h
    simp only [Outcome.configError.injEq] at h
    obtain ⟨hm, ht⟩ := h
    subst hm ht
    refine ⟨?_, hl, rfl, rfl, rfl, rfl, by simp, fun _ => rfl, fun hne => absurd rfl hne⟩
    rcases drawMode_cases (rnd 0) with h | h <;> simp [h, modes]
  · intro d rnd st l _ _ _ h
    simp at h
  · intro d rnd st l n r _ _ _ ih h
    obtain ⟨h1, h2, h3, h4, h5, h6, h7, h8, h9⟩ := ih h
    refine ⟨h1, h2, h3, h4, h5, h6, ?_, ?_, ?_⟩
    · cases hr : r.attempts with
      | nil => rw [hr] at h7; simp at h7
      | cons a as => rw [hr] at h7; simpa [List.getLast?_cons_cons] using h7
    · intro hs
      cases hr : r.attempts with
      | nil => rw [hr] at h7; simp at h7
      | cons a as => rw [hr] at hs; simp at hs
    · intro _
      by_cases hs : r.attempts = [n]
      · simpa using h8 hs
      · exact h9 hs
  · intro d rnd st l newQuestion _ _ h
    simp at h

end LoadProps

/-! ## Properties of a call of `handleAnswer` -/

section Answer

variable {Q : Type} [DecidableEq Q]

/-- The locals at the end of lines 118-137 are the transition computed on the
counters updated at lines 91-103. -/
theorem handleAnswer_locals (questions : QuestionPool Q)
    (predictDifficulty : PlayerStats → Option String) (rnd : Nat → Nat)
    (isCorrect : Bool) (s : GameState Q) :
    (handleAnswer questions predictDifficulty rnd isCorrect s).locals =
      transition predictDifficulty s.difficulty isCorrect
        (if isCorrect then s.innerStreak + 1 else 0)
        (if isCorrect then 0 else s.consecutiveWrongAnswers + 1) := by
  unfold handleAnswer
  simp only [recordAnswer]
  split <;> rfl

/-- When the `try` block reaches line 146, the call made there. -/
theorem handleAnswer_load (questions : QuestionPool Q)
    (predictDifficulty : PlayerStats → Option String) (rnd : Nat → Nat)
    (isCorrect : Bool) (s : GameState Q) (nextDifficulty : String)
    (h : (handleAnswer questions predictDifficulty rnd isCorrect s).locals.nextDifficulty =
      some nextDifficulty) :
    ∃ st, st.askedQuestions = s.askedQuestions ∧ st.difficulty = nextDifficulty ∧
      (handleAnswer questions predictDifficulty rnd isCorrect s).load =
        some (loadNextQuestion questions s.askedQuestions nextDifficulty rnd st) ∧
      (handleAnswer questions predictDifficulty rnd isCorrect s).state =
        (loadNextQuestion questions s.askedQuestions nextDifficulty rnd st).state := by
  unfold handleAnswer at h ⊢
  simp only [] at h ⊢
  split
  · next hn => simp only [hn] at h; cases h
  · next n hn =>
    simp only [hn, Option.some.injEq] at h
    subst h
    refine ⟨_, ?_, ?_, rfl, rfl⟩
    · simp only [recordAnswer]
      split <;> rfl
    · simp only [recordAnswer]
      split
      · rfl
      · next hne => exact (not_not.mp hne).symm

/-- When the `catch` block runs, only the error is set on top of the updates
of lines 91-108. -/
theorem handleAnswer_catch (questions : QuestionPool Q)
    (predictDifficulty : PlayerStats → Option String) (rnd : Nat → Nat)
    (isCorrect : Bool) (s : GameState Q)
    (h : (handleAnswer questions predictDifficulty rnd isCorrect s).locals.nextDifficulty =
      none) :
    (handleAnswer questions predictDifficulty rnd isCorrect s).load = none ∧
    (handleAnswer questions predictDifficulty rnd isCorrect s).state =
      { recordAnswer isCorrect s with error := some "Error predicting difficulty" } := by
  unfold handleAnswer at h ⊢
  simp only [] at h ⊢
  split
  · exact ⟨rfl, rfl⟩
  · next n hn => simp only [hn] at h; cases h

/-- The score and the counters stored by a call are those of lines 91-108,
whatever happens afterwards. -/
theorem handleAnswer_counters (questions : QuestionPool Q)
    (predictDifficulty : PlayerStats → Option String) (rnd : Nat → Nat)
    (isCorrect : Bool) (s : GameState Q) :
    (handleAnswer questions predictDifficulty rnd isCorrect s).state.score =
      (if isCorrect then s.score + (1 + (s.actualStreak + 1) / 3) else s.score) ∧
    (handleAnswer questions predictDifficulty rnd isCorrect s).state.actualStreak =
      (if isCorrect then s.actualStreak + 1 else 0) ∧
    (handleAnswer questions predictDifficulty rnd isCorrect s).state.innerStreak =
      (if isCorrect then s.innerStreak + 1 else 0) ∧
    (handleAnswer questions predictDifficulty rnd isCorrect s).state.consecutiveWrongAnswers =
      (if isCorrect then 0 else s.consecutiveWrongAnswers + 1) := by
  cases hn : (handleAnswer questions predictDifficulty rnd isCorrect s).locals.nextDifficulty with
  | none =>
    rw [(handleAnswer_catch questions predictDifficulty rnd isCorrect s hn).2]
    cases isCorrect <;> simp [recordAnswer]
  | some n =>
    unfold handleAnswer at hn ⊢
    simp only [] at hn ⊢
    split
    · next h0 => simp only [h0] at hn; cases hn
    · next m hm =>
      obtain ⟨h1, h2, h3, h4, _⟩ := load_frame questions s.askedQuestions m rnd
        { (if m ≠ s.difficulty then
            { recordAnswer isCorrect s with difficulty := m, previousQuestions := [] }
          else recordAnswer isCorrect s) with loading := true }
      refine ⟨h1.trans ?_, h2.trans ?_, h3.trans ?_, h4.trans ?_⟩ <;>
        cases isCorrect <;> simp only [recordAnswer] <;> split <;> simp

theorem play_score_le (questions : QuestionPool Q) (rounds : List Round) :
    ∀ s : GameState Q, s.score ≤ (play questions rounds s).score := by
  induction rounds with
  | nil => intro s; exact Nat.le_refl _
  | cons r rest ih =>
    intro s
    refine Nat.le_trans ?_ (ih _)
    rw [(handleAnswer_counters questions r.predictDifficulty r.rnd r.isCorrect s).1]
    split
    · exact Nat.le_add_right _ _
    · exact Nat.le_refl _

theorem play_streaks (questions : QuestionPool Q) (rounds : List Round) :
    ∀ s : GameState Q, s.innerStreak = s.actualStreak →
      (play questions rounds s).innerStreak = (play questions rounds s).actualStreak := by
  induction rounds with
  | nil => intro s hs; exact hs
  | cons r rest ih =>
    intro s hs
    refine ih _ ?_
    obtain ⟨_, h2, h3, _⟩ :=
      handleAnswer_counters questions r.predictDifficulty r.rnd r.isCorrect s
    rw [h2, h3, hs]

end Answer

/-! ## The claims -/

section Claims

variable {Q : Type} [DecidableEq Q]

/-- C1: at a current difficulty among easy, normal and hard, whenever the
predictor would return `p`, the `nextDifficulty` computed by `handleAnswer` is
the first matching rule of the specification evaluated on the counters after
the answer's update (promotion at inner streak 3 or more, else normal at hard
after a wrong answer, else easy at normal with two or more consecutive wrong
answers, else `p`), and the draw that follows starts at that tier; at hard a
wrong answer gives normal whatever the streak and the predictor; and when one
of the three rules matches, the result does not depend on the predictor. -/
theorem handleAnswer_nextDifficulty_priority (questions : QuestionPool Q)
    (predictDifficulty : PlayerStats → Option String) (rnd : Nat → Nat)
    (isCorrect : Bool) (s : GameState Q)
    (hd : s.difficulty = "easy" ∨ s.difficulty = "normal" ∨ s.difficulty = "hard") :
    (∀ p : String,
      predictDifficulty
        { streak := if isCorrect then s.innerStreak + 1 else 0
          current_difficulty := s.difficulty } = some p →
      (handleAnswer questions predictDifficulty rnd isCorrect s).locals.nextDifficulty =
        some (specNextDifficulty s.difficulty isCorrect
          (if isCorrect then s.innerStreak + 1 else 0)
          (if isCorrect then 0 else s.consecutiveWrongAnswers + 1) p) ∧
      ∃ r, (handleAnswer questions predictDifficulty rnd isCorrect s).load = some r ∧
        r.attempts.head? = some (specNextDifficulty s.difficulty isCorrect
          (if isCorrect then s.innerStreak + 1 else 0)
          (if isCorrect then 0 else s.consecutiveWrongAnswers + 1) p)) ∧
    (s.difficulty = "hard" → isCorrect = false →
      (handleAnswer questions predictDifficulty rnd isCorrect s).locals.nextDifficulty =
        some "normal") ∧
    (∀ other : PlayerStats → Option String,
      ((if isCorrect then s.innerStreak + 1 else 0) ≥ 3 ∨
        (s.difficulty = "hard" ∧ isCorrect = false) ∨
        (s.difficulty = "normal" ∧
          (if isCorrect then 0 else s.consecutiveWrongAnswers + 1) ≥ 2)) →
      (handleAnswer questions other rnd isCorrect s).locals.nextDifficulty =
        (handleAnswer questions predictDifficulty rnd isCorrect s).locals.nextDifficulty) := by
  have hnext : ∀ p : String,
      predictDifficulty
        { streak := if isCorrect then s.innerStreak + 1 else 0
          current_difficulty := s.difficulty } = some p →
      (handleAnswer questions predictDifficulty rnd isCorrect s).locals.nextDifficulty =
        some (specNextDifficulty s.difficulty isCorrect
          (if isCorrect then s.innerStreak + 1 else 0)
          (if isCorrect then 0 else s.consecutiveWrongAnswers + 1) p) := by
    intro p hp
    rw [handleAnswer_locals]
    unfold transition specNextDifficulty
    rcases hd with hd | hd | hd <;> rw [hd] at hp ⊢ <;> split_ifs <;> simp_all
  refine ⟨fun p hp => ⟨hnext p hp, ?_⟩, ?_, ?_⟩
  · obtain ⟨st, _, _, hload, _⟩ := handleAnswer_load questions predictDifficulty rnd
      isCorrect s _ (hnext p hp)
    exact ⟨_, hload, (load_difficulty questions s.askedQuestions _ rnd st).2.2⟩
  · intro hh hw
    rw [handleAnswer_locals]
    unfold transition
    subst hw
    simp [hh]
  · intro other hrule
    rw [handleAnswer_locals, handleAnswer_locals]
    unfold transition
    rcases hrule with h | h | h
    · simp [h]
    · split_ifs <;> simp_all
    · split_ifs <;> simp_all

/-- Witness for C1: a correct answer at easy with inner streak 0 and a
predictor returning easy. -/
theorem handleAnswer_nextDifficulty_priority_witness :
    (easyState.difficulty = "easy" ∨ easyState.difficulty = "normal" ∨
      easyState.difficulty = "hard") ∧
    (handleAnswer samplePool (steadyRound true).predictDifficulty (fun _ => 0) true
      easyState).locals.nextDifficulty =
      some (specNextDifficulty "easy" true 1 0 "easy") :=
  ⟨Or.inl rfl,
    ((handleAnswer_nextDifficulty_priority samplePool (steadyRound true).predictDifficulty
      (fun _ => 0) true easyState (Or.inl rfl)).1 "easy" rfl).1⟩

/-- C2: a correct answer raises the score by exactly `1 + floor(s / 3)` where
`s` is the actual streak after its increment, a wrong answer leaves the score
unchanged, and the score never decreases across any sequence of answers. -/
theorem handleAnswer_score (questions : QuestionPool Q)
    (predictDifficulty : PlayerStats → Option String) (rnd : Nat → Nat)
    (s : GameState Q) :
    (handleAnswer questions predictDifficulty rnd true s).state.score =
      s.score + (1 + (s.actualStreak + 1) / 3) ∧
    (handleAnswer questions predictDifficulty rnd false s).state.score = s.score ∧
    ∀ rounds : List Round, s.score ≤ (play questions rounds s).score := by
  refine ⟨?_, ?_, fun rounds => play_score_le questions rounds s⟩
  · simpa using (handleAnswer_counters questions predictDifficulty rnd true s).1
  · simpa using (handleAnswer_counters questions predictDifficulty rnd false s).1

/-- C4: from the initial state (easy, inner streak 0), three correct answers
with a predictor that keeps the difficulty and no escalation in the draws
leave difficulty normal and the stored inner streak at 3, not 0: the reset of
line 127 is made on the local after `setInnerStreak` has run.  A fourth
correct answer then promotes at once to hard. -/
theorem promotion_keeps_stored_innerStreak :
    (play samplePool [steadyRound true, steadyRound true, steadyRound true]
      (initialState Nat)).difficulty = "normal" ∧
    (play samplePool [steadyRound true, steadyRound true, steadyRound true]
      (initialState Nat)).innerStreak = 3 ∧
    (handleAnswer samplePool (steadyRound true).predictDifficulty (steadyRound true).rnd
      true (play samplePool [steadyRound true, steadyRound true]
        (initialState Nat))).locals.newInnerStreak = 0 ∧
    (play samplePool [steadyRound true, steadyRound true, steadyRound true,
      steadyRound true] (initialState Nat)).difficulty = "hard" := by
  simp [play, handleAnswer, recordAnswer, transition, loadNextQuestion, lookup, drawMode,
    modes, samplePool, steadyRound, initialState]

/-- C5, as stated, fails: the session starts at easy with question 1 shown;
three correct answers (promotion to normal) and one wrong answer lead to
difficulty normal with one consecutive wrong answer; the next wrong answer
leaves the stored count of consecutive wrong answers at 2, not 0, and the
session at normal, not easy, because the draw at easy finds the three easy
multiple-choice questions asked and escalates. -/
theorem normal_demotion_not_easy_not_reset :
    (play samplePool [steadyRound true, steadyRound true, steadyRound true,
      steadyRound false] easyState).difficulty = "normal" ∧
    (play samplePool [steadyRound true, steadyRound true, steadyRound true,
      steadyRound false] easyState).consecutiveWrongAnswers = 1 ∧
    (play samplePool [steadyRound true, steadyRound true, steadyRound true,
      steadyRound false, steadyRound false] easyState).difficulty = "normal" ∧
    (play samplePool [steadyRound true, steadyRound true, steadyRound true,
      steadyRound false, steadyRound false] easyState).consecutiveWrongAnswers = 2 := by
  simp [play, handleAnswer, recordAnswer, transition, loadNextQuestion, lookup, drawMode,
    modes, escalate, samplePool, steadyRound, easyState, initialState]

/-- C5, amended: at difficulty normal with at least one consecutive wrong
answer before the call, a wrong answer makes `handleAnswer` compute easy as
next difficulty and start the draw at easy; the stored difficulty is easy when
that draw does not escalate and the last tier tried when it does; the stored
inner streak is 0. -/
theorem normal_double_fail_demotion (questions : QuestionPool Q)
    (predictDifficulty : PlayerStats → Option String) (rnd : Nat → Nat)
    (s : GameState Q) (hd : s.difficulty = "normal")
    (hw : s.consecutiveWrongAnswers ≥ 1) :
    (handleAnswer questions predictDifficulty rnd false s).locals.nextDifficulty =
      some "easy" ∧
    (∃ r, (handleAnswer questions predictDifficulty rnd false s).load = some r ∧
      r.attempts.head? = some "easy" ∧
      (r.attempts = ["easy"] →
        (handleAnswer questions predictDifficulty rnd false s).state.difficulty = "easy") ∧
      (r.attempts ≠ ["easy"] →
        r.attempts.getLast? =
          some (handleAnswer questions predictDifficulty rnd false s).state.difficulty)) ∧
    (handleAnswer questions predictDifficulty rnd false s).state.innerStreak = 0 := by
  have hn : (handleAnswer questions predictDifficulty rnd false s).locals.nextDifficulty =
      some "easy" := by
    rw [handleAnswer_locals]
    unfold transition
    have h2 : s.consecutiveWrongAnswers + 1 ≥ 2 := Nat.succ_le_succ hw
    simp [hd, h2]
  obtain ⟨st, _, hdiff, hload, hstate⟩ :=
    handleAnswer_load questions predictDifficulty rnd false s "easy" hn
  obtain ⟨d1, d2, d3⟩ := load_difficulty questions s.askedQuestions "easy" rnd st
  refine ⟨hn, ⟨_, hload, d3, ?_, ?_⟩, ?_⟩
  · intro ha
    rw [hstate, d1 ha, hdiff]
  · intro ha
    rw [hstate]
    exact d2 ha
  · simpa using (handleAnswer_counters questions predictDifficulty rnd false s).2.2.1

/-- Witness for C5 amended: at normal after one wrong answer, with an unseen
easy question left, the second wrong answer leaves the session at easy with
inner streak 0. -/
theorem normal_double_fail_demotion_witness :
    ({ easyState with difficulty := "normal",
                      consecutiveWrongAnswers := 1 } : GameState Nat).difficulty =
      "normal" ∧
    ({ easyState with difficulty := "normal", consecutiveWrongAnswers :=
      1 } : GameState Nat).consecutiveWrongAnswers ≥ 1 ∧
    (handleAnswer samplePool (steadyRound false).predictDifficulty (fun _ => 0) false
      { easyState with difficulty := "normal",
                       consecutiveWrongAnswers := 1 }).locals.nextDifficulty =
      some "easy" ∧
    (handleAnswer samplePool (steadyRound false).predictDifficulty (fun _ => 0) false
      { easyState with difficulty := "normal",
                       consecutiveWrongAnswers := 1 }).state.innerStreak = 0 :=
  ⟨rfl, Nat.le_refl 1,
    (normal_double_fail_demotion samplePool (steadyRound false).predictDifficulty
      (fun _ => 0) { easyState with difficulty := "normal", consecutiveWrongAnswers := 1 }
      rfl (Nat.le_refl 1)).1,
    (normal_double_fail_demotion samplePool (steadyRound false).predictDifficulty
      (fun _ => 0) { easyState with difficulty := "normal", consecutiveWrongAnswers := 1 }
      rfl (Nat.le_refl 1)).2.2⟩

/-- C6: with question 1 (the only multiple-choice question at hard) asked and
question 2 (fill-in-the-blank, hard) not asked, a call at hard that draws the
multiple-choice mode takes the game-over branch and raises the modal, although
question 2 is an unseen question at the highest tier. -/
theorem exhaustion_with_unseen_hard_question :
    (loadNextQuestion hardPool [1] "hard" (fun _ => 0)
      { initialState Nat with difficulty := "hard", askedQuestions := [1] }).outcome =
      Outcome.exhausted "multipleChoice" "hard" ∧
    (loadNextQuestion hardPool [1] "hard" (fun _ => 0)
      { initialState Nat with difficulty := "hard", askedQuestions := [1] }).state.showModal =
      true ∧
    lookup hardPool "fillInTheBlank" "hard" = some [2] ∧
    2 ∉ ([1] : List Nat) := by
  simp [loadNextQuestion, lookup, drawMode, modes, escalate, hardPool, initialState]

/-- C7, as stated, fails: at easy with both easy questions of the pool asked
and no list at normal, the call escalates to normal and ends with the
configuration error; the stored difficulty has become normal and the previous
questions have been cleared. -/
theorem configError_after_escalation_changes_state :
    (loadNextQuestion gapPool [1, 2] "easy" (fun _ => 0)
      { easyState with askedQuestions := [1, 2], previousQuestions := [1, 2] }).outcome =
      Outcome.configError "multipleChoice" "normal" ∧
    (loadNextQuestion gapPool [1, 2] "easy" (fun _ => 0)
      { easyState with askedQuestions := [1, 2],
                       previousQuestions := [1, 2] }).state.difficulty = "normal" ∧
    ({ easyState with askedQuestions := [1, 2],
                      previousQuestions := [1, 2] } : GameState Nat).difficulty = "easy" ∧
    (loadNextQuestion gapPool [1, 2] "easy" (fun _ => 0)
      { easyState with askedQuestions := [1, 2],
                       previousQuestions := [1, 2] }).state.previousQuestions = [] := by
  simp [loadNextQuestion, lookup, drawMode, modes, escalate, gapPool, easyState,
    initialState]

/-- C7, amended: when a call of `loadNextQuestion` ends with the configuration
error, the asked list, the score and the three streak counters are as before
the call; the difficulty and the previous questions are as before the call
when the error occurs at the first tier tried, and after an escalation the
difficulty is the last tier tried (the one without a list) and the previous
questions are empty. -/
theorem configError_frame (questions : QuestionPool Q) (askedQuestions : List Q)
    (difficulty : String) (rnd : Nat → Nat) (st : GameState Q) (mode tier : String)
    (h : (loadNextQuestion questions askedQuestions difficulty rnd st).outcome =
      Outcome.configError mode tier) :
    lookup questions mode tier = none ∧
    (loadNextQuestion questions askedQuestions difficulty rnd st).state.askedQuestions =
      st.askedQuestions ∧
    (loadNextQuestion questions askedQuestions difficulty rnd st).state.score = st.score ∧
    (loadNextQuestion questions askedQuestions difficulty rnd st).state.actualStreak =
      st.actualStreak ∧
    (loadNextQuestion questions askedQuestions difficulty rnd st).state.innerStreak =
      st.innerStreak ∧
    (loadNextQuestion questions askedQuestions difficulty rnd st).state.consecutiveWrongAnswers =
      st.consecutiveWrongAnswers ∧
    ((loadNextQuestion questions askedQuestions difficulty rnd st).attempts = [difficulty] →
      (loadNextQuestion questions askedQuestions difficulty rnd st).state.difficulty =
        st.difficulty ∧
      (loadNextQuestion questions askedQuestions difficulty rnd st).state.previousQuestions =
        st.previousQuestions) ∧
    ((loadNextQuestion questions askedQuestions difficulty rnd st).attempts ≠ [difficulty] →
      (loadNextQuestion questions askedQuestions difficulty rnd st).state.difficulty = tier ∧
      (loadNextQuestion questions askedQuestions difficulty rnd st).state.previousQuestions =
        []) := by
  obtain ⟨_, h2, h3, _, _, _, h7, h8, h9⟩ :=
    load_configError questions askedQuestions difficulty rnd st mode tier h
  obtain ⟨f1, f2, f3, f4, _, _⟩ := load_frame questions askedQuestions difficulty rnd st
  obtain ⟨d1, d2, _⟩ := load_difficulty questions askedQuestions difficulty rnd st
  refine ⟨h2, h3, f1, f2, f3, f4, fun hs => ⟨d1 hs, h8 hs⟩, fun hs => ⟨?_, h9 hs⟩⟩
  have := d2 hs
  rw [h7] at this
  exact (Option.some.inj this).symm

/-- Witness for C7 amended: the configuration error reached at the first tier
tried (no list at normal) leaves difficulty and previous questions alone. -/
theorem configError_frame_witness :
    (loadNextQuestion gapPool [1] "normal" (fun _ => 0) easyState).outcome =
      Outcome.configError "multipleChoice" "normal" ∧
    (loadNextQuestion gapPool [1] "normal" (fun _ => 0) easyState).attempts = ["normal"] ∧
    (loadNextQuestion gapPool [1] "normal" (fun _ => 0) easyState).state.difficulty =
      easyState.difficulty ∧
    (loadNextQuestion gapPool [1] "normal" (fun _ => 0) easyState).state.previousQuestions =
      easyState.previousQuestions :=
  have ho : (loadNextQuestion gapPool [1] "normal" (fun _ => 0) easyState).outcome =
      Outcome.configError "multipleChoice" "normal" := by
    simp [loadNextQuestion, lookup, drawMode, modes, gapPool]
  have ha : (loadNextQuestion gapPool [1] "normal" (fun _ => 0) easyState).attempts =
      ["normal"] := by
    simp [loadNextQuestion, lookup, drawMode, modes, gapPool]
  ⟨ho, ha,
    ((configError_frame gapPool [1] "normal" (fun _ => 0) easyState "multipleChoice"
      "normal" ho).2.2.2.2.2.2.1 ha).1,
    ((configError_frame gapPool [1] "normal" (fun _ => 0) easyState "multipleChoice"
      "normal" ho).2.2.2.2.2.2.1 ha).2⟩

/-- C8: when none of the promotion and demotion rules applies to the updated
counters and the predictor throws, `handleAnswer` sets the error, draws no
question, leaves difficulty, previous questions, asked questions, the current
question and its mode unchanged, and keeps the updates of score, actual
streak, inner streak and consecutive wrong answers made before the `try`
block. -/
theorem handleAnswer_predictor_failure (questions : QuestionPool Q)
    (predictDifficulty : PlayerStats → Option String) (rnd : Nat → Nat)
    (isCorrect : Bool) (s : GameState Q)
    (hpromote : ¬ (if isCorrect then s.innerStreak + 1 else 0) ≥ 3)
    (hhard : ¬ (s.difficulty = "hard" ∧ isCorrect = false))
    (hnormal : ¬ (s.difficulty = "normal" ∧
      (if isCorrect then 0 else s.consecutiveWrongAnswers + 1) ≥ 2))
    (hthrow : predictDifficulty
      { streak := if isCorrect then s.innerStreak + 1 else 0
        current_difficulty := s.difficulty } = none) :
    (handleAnswer questions predictDifficulty rnd isCorrect s).state.error =
      some "Error predicting difficulty" ∧
    (handleAnswer questions predictDifficulty rnd isCorrect s).load = none ∧
    (handleAnswer questions predictDifficulty rnd isCorrect s).state.difficulty =
      s.difficulty ∧
    (handleAnswer questions predictDifficulty rnd isCorrect s).state.previousQuestions =
      s.previousQuestions ∧
    (handleAnswer questions predictDifficulty rnd isCorrect s).state.askedQuestions =
      s.askedQuestions ∧
    (handleAnswer questions predictDifficulty rnd isCorrect s).state.currentQuestion =
      s.currentQuestion ∧
    (handleAnswer questions predictDifficulty rnd isCorrect s).state.gameMode =
      s.gameMode ∧
    (handleAnswer questions predictDifficulty rnd isCorrect s).state.score =
      (if isCorrect then s.score + (1 + (s.actualStreak + 1) / 3) else s.score) ∧
    (handleAnswer questions predictDifficulty rnd isCorrect s).state.actualStreak =
      (if isCorrect then s.actualStreak + 1 else 0) ∧
    (handleAnswer questions predictDifficulty rnd isCorrect s).state.innerStreak =
      (if isCorrect then s.innerStreak + 1 else 0) ∧
    (handleAnswer questions predictDifficulty rnd isCorrect s).state.consecutiveWrongAnswers =
      (if isCorrect then 0 else s.consecutiveWrongAnswers + 1) := by
  have hn : (handleAnswer questions predictDifficulty rnd isCorrect s).locals.nextDifficulty =
      none := by
    rw [handleAnswer_locals]
    unfold transition
    rw [if_neg hpromote, if_neg hhard, if_neg hnormal]
    exact hthrow
  obtain ⟨hload, hstate⟩ := handleAnswer_catch questions predictDifficulty rnd isCorrect s hn
  obtain ⟨c1, c2, c3, c4⟩ := handleAnswer_counters questions predictDifficulty rnd isCorrect s
  refine ⟨?_, hload, ?_, ?_, ?_, ?_, ?_, c1, c2, c3, c4⟩ <;> rw [hstate] <;> rfl

/-- Witness for C8: a first correct answer at easy while the predictor
throws. -/
theorem handleAnswer_predictor_failure_witness :
    (failingRound true).predictDifficulty
      { streak := 1, current_difficulty := "easy" } = none ∧
    (handleAnswer samplePool (failingRound true).predictDifficulty (fun _ => 0) true
      easyState).state.error = some "Error predicting difficulty" ∧
    (handleAnswer samplePool (failingRound true).predictDifficulty (fun _ => 0) true
      easyState).state.askedQuestions = easyState.askedQuestions :=
  ⟨rfl,
    (handleAnswer_predictor_failure samplePool (failingRound true).predictDifficulty
      (fun _ => 0) true easyState (by decide) (by decide) (by decide) rfl).1,
    (handleAnswer_predictor_failure samplePool (failingRound true).predictDifficulty
      (fun _ => 0) true easyState (by decide) (by decide) (by decide) rfl).2.2.2.2.1⟩

/-- C9: `loadNextQuestion` is a total function, so every call returns; it tries
at most three tiers, the first being the starting one and each later one the
next tier up (easy to normal, normal to hard); the stored difficulty is
untouched without escalation and is the last tier tried after one; and the
call returns in one of three branches: a question selected at the last tier
tried, game over, or the configuration error, the other two signals being left
as they were. -/
theorem loadNextQuestion_bounded_attempts (questions : QuestionPool Q)
    (askedQuestions : List Q) (difficulty : String) (rnd : Nat → Nat)
    (st : GameState Q) :
    (loadNextQuestion questions askedQuestions difficulty rnd st).attempts.length ≤ 3 ∧
    ((loadNextQuestion questions askedQuestions difficulty rnd st).attempts = [difficulty] ∨
      (difficulty = "easy" ∧
        (loadNextQuestion questions askedQuestions difficulty rnd st).attempts =
          ["easy", "normal"]) ∨
      (difficulty = "easy" ∧
        (loadNextQuestion questions askedQuestions difficulty rnd st).attempts =
          ["easy", "normal", "hard"]) ∨
      (difficulty = "normal" ∧
        (loadNextQuestion questions askedQuestions difficulty rnd st).attempts =
          ["normal", "hard"])) ∧
    ((loadNextQuestion questions askedQuestions difficulty rnd st).attempts = [difficulty] →
      (loadNextQuestion questions askedQuestions difficulty rnd st).state.difficulty =
        st.difficulty) ∧
    ((loadNextQuestion questions askedQuestions difficulty rnd st).attempts ≠ [difficulty] →
      (loadNextQuestion questions askedQuestions difficulty rnd st).attempts.getLast? =
        some (loadNextQuestion questions askedQuestions difficulty rnd st).state.difficulty) ∧
    ((∃ mode tier q,
        (loadNextQuestion questions askedQuestions difficulty rnd st).outcome =
          Outcome.selected mode tier q ∧
        (loadNextQuestion questions askedQuestions difficulty rnd st).attempts.getLast? =
          some tier ∧
        (loadNextQuestion questions askedQuestions difficulty rnd st).state.currentQuestion =
          some q ∧
        (loadNextQuestion questions askedQuestions difficulty rnd st).state.showModal =
          st.showModal ∧
        (loadNextQuestion questions askedQuestions difficulty rnd st).state.error =
          st.error) ∨
      (∃ mode tier,
        (loadNextQuestion questions askedQuestions difficulty rnd st).outcome =
          Outcome.exhausted mode tier ∧
        (loadNextQuestion questions askedQuestions difficulty rnd st).attempts.getLast? =
          some tier ∧
        (loadNextQuestion questions askedQuestions difficulty rnd st).state.currentQuestion =
          st.currentQuestion ∧
        (loadNextQuestion questions askedQuestions difficulty rnd st).state.showModal =
          true ∧
        (loadNextQuestion questions askedQuestions difficulty rnd st).state.error =
          st.error) ∨
      (∃ mode tier,
        (loadNextQuestion questions askedQuestions difficulty rnd st).outcome =
          Outcome.configError mode tier ∧
        (loadNextQuestion questions askedQuestions difficulty rnd st).attempts.getLast? =
          some tier ∧
        (loadNextQuestion questions askedQuestions difficulty rnd st).state.currentQuestion =
          st.currentQuestion ∧
        (loadNextQuestion questions askedQuestions difficulty rnd st).state.showModal =
          st.showModal ∧
        (loadNextQuestion questions askedQuestions difficulty rnd st).state.error =
          some ("Questions not found for mode: " ++ mode ++ " and difficulty: " ++
            tier))) := by
  have hatt := load_attempts questions askedQuestions difficulty rnd st
  obtain ⟨d1, d2, _⟩ := load_difficulty questions askedQuestions difficulty rnd st
  refine ⟨?_, hatt, d1, d2, ?_⟩
  · rcases hatt with h | ⟨_, h⟩ | ⟨_, h⟩ | ⟨_, h⟩ <;> rw [h] <;> simp
  · cases ho : (loadNextQuestion questions askedQuestions difficulty rnd st).outcome with
    | selected mode tier q =>
      obtain ⟨_, _, _, _, h5, _, h7, h8, h9⟩ :=
        load_selected questions askedQuestions difficulty rnd st mode tier q ho
      exact Or.inl ⟨mode, tier, q, rfl, h9, h5, h7, h8⟩
    | exhausted mode tier =>
      obtain ⟨_, _, _, _, h5, h6, h7, h8⟩ :=
        load_exhausted questions askedQuestions difficulty rnd st mode tier ho
      exact Or.inr (Or.inl ⟨mode, tier, rfl, h8, h5, h6, h7⟩)
    | configError mode tier =>
      obtain ⟨_, _, _, h4, h5, h6, h7, _⟩ :=
        load_configError questions askedQuestions difficulty rnd st mode tier ho
      exact Or.inr (Or.inr ⟨mode, tier, rfl, h7, h4, h5, h6⟩)

/-- Witness for C9: from easy with empty lists at easy and normal, the call
tries easy, normal and hard, selects question 1 at hard and leaves the stored
difficulty at hard. -/
theorem loadNextQuestion_bounded_attempts_witness :
    (loadNextQuestion hardPool [] "easy" (fun _ => 0) (initialState Nat)).attempts =
      ["easy", "normal", "hard"] ∧
    (loadNextQuestion hardPool [] "easy" (fun _ => 0) (initialState Nat)).attempts ≠
      ["easy"] ∧
    (loadNextQuestion hardPool [] "easy" (fun _ => 0) (initialState Nat)).attempts.getLast? =
      some (loadNextQuestion hardPool [] "easy" (fun _ => 0)
        (initialState Nat)).state.difficulty :=
  have ha : (loadNextQuestion hardPool [] "easy" (fun _ => 0) (initialState Nat)).attempts =
      ["easy", "normal", "hard"] := by
    simp [loadNextQuestion, lookup, drawMode, modes, escalate, hardPool]
  have hne : (loadNextQuestion hardPool [] "easy" (fun _ => 0) (initialState Nat)).attempts ≠
      ["easy"] := by
    rw [ha]; decide
  ⟨ha, hne,
    (loadNextQuestion_bounded_attempts hardPool [] "easy" (fun _ => 0)
      (initialState Nat)).2.2.2.1 hne⟩

/-- C10: a call of `handleAnswer` stores `old + 1` in both streaks after a
correct answer and 0 in both after a wrong one, whatever the predictor does
and whichever branch of the transition runs: when the promotion rule fires
the local `newInnerStreak` ends at 0 while the stored inner streak is
`old + 1`.  Hence from a state where the two streaks agree, as the initial
state, every sequence of answered rounds leaves the stored inner streak equal
to the stored actual streak. -/
theorem innerStreak_eq_actualStreak (questions : QuestionPool Q)
    (rounds : List Round) (s : GameState Q) (h : s.innerStreak = s.actualStreak) :
    (play questions rounds s).innerStreak = (play questions rounds s).actualStreak ∧
    (play questions rounds (initialState Q)).innerStreak =
      (play questions rounds (initialState Q)).actualStreak ∧
    (∀ (predictDifficulty : PlayerStats → Option String) (rnd : Nat → Nat)
        (isCorrect : Bool),
      (handleAnswer questions predictDifficulty rnd isCorrect s).state.actualStreak =
        (if isCorrect then s.actualStreak + 1 else 0) ∧
      (handleAnswer questions predictDifficulty rnd isCorrect s).state.innerStreak =
        (if isCorrect then s.innerStreak + 1 else 0)) ∧
    (∀ (predictDifficulty : PlayerStats → Option String) (rnd : Nat → Nat),
      s.innerStreak + 1 ≥ 3 →
      (handleAnswer questions predictDifficulty rnd true s).locals.newInnerStreak = 0 ∧
      (handleAnswer questions predictDifficulty rnd true s).state.innerStreak =
        s.innerStreak + 1) := by
  refine ⟨play_streaks questions rounds s h, play_streaks questions rounds _ rfl, ?_, ?_⟩
  · intro predictDifficulty rnd isCorrect
    obtain ⟨_, c2, c3, _⟩ := handleAnswer_counters questions predictDifficulty rnd isCorrect s
    exact ⟨c2, c3⟩
  · intro predictDifficulty rnd h3
    obtain ⟨_, _, c3, _⟩ := handleAnswer_counters questions predictDifficulty rnd true s
    refine ⟨?_, by simpa using c3⟩
    rw [handleAnswer_locals]
    unfold transition
    simp [h3]

/-- Witness for C10: after three correct answers from the initial state both
stored streaks are 3. -/
theorem innerStreak_eq_actualStreak_witness :
    (initialState Nat).innerStreak = (initialState Nat).actualStreak ∧
    (play samplePool [steadyRound true, steadyRound true, steadyRound true]
      (initialState Nat)).innerStreak =
    (play samplePool [steadyRound true, steadyRound true, steadyRound true]
      (initialState Nat)).actualStreak :=
  ⟨rfl,
    (innerStreak_eq_actualStreak samplePool
      [steadyRound true, steadyRound true, steadyRound true] (initialState Nat) rfl).1⟩

end Claims

end Game
